import Mathlib

/-!
Verification model of the SEO-Keyword-Analyzer front-end repository.

The only non-glue logic lives in the API route `src/app/api/analyze/route.ts`:
a heuristic scorer `generateSEOAnalysis` with helpers `calculateReadingTime`
and `extractCleanKeywords`, plus the `POST` handlers (the mock route in
`route.ts` and the webhook-proxy variant).  The JavaScript string operations
used there (`split(/\s+/)`, `replace(/[^\w\s]/g, " ")`, lookahead splits,
truthiness, `||` defaulting) are modelled explicitly below on `List Char`.
-/

namespace SEOAnalyzer

/-- Characters matched by the JavaScript regex class `\s`
    (ASCII whitespace plus the Unicode space separators JS includes). -/
def isJsWs (c : Char) : Bool :=
  c = ' ' || c = '\t' || c = '\n' || c = '\r' ||
  c.toNat = 0x0b || c.toNat = 0x0c || c.toNat = 0xa0 || c.toNat = 0x1680 ||
  (0x2000 ≤ c.toNat && c.toNat ≤ 0x200a) ||
  c.toNat = 0x2028 || c.toNat = 0x2029 || c.toNat = 0x202f ||
  c.toNat = 0x205f || c.toNat = 0x3000 || c.toNat = 0xfeff

/-- Characters matched by the JavaScript regex class `\w`, i.e. `[A-Za-z0-9_]`. -/
def isJsWordChar (c : Char) : Bool :=
  c.isAlpha || c.isDigit || c = '_'

/-- Prepend a character to the first fragment of a fragment list
    (used to build up the result of a split from the right). -/
def consHead (c : Char) : List (List Char) → List (List Char)
  | t :: ts => (c :: t) :: ts
  | [] => [[c]]

/-- JavaScript `str.split(/\s+/)` on the character list of `str`:
    fragments between maximal whitespace runs.  As in JS, a leading or a
    trailing whitespace run contributes an empty fragment, and the empty
    string yields the one-element list containing the empty fragment. -/
def jsSplitWs : List Char → List (List Char)
  | [] => [[]]
  | c :: rest =>
    if isJsWs c then
      match rest with
      | [] => [] :: jsSplitWs rest
      | c2 :: _ => if isJsWs c2 then jsSplitWs rest else [] :: jsSplitWs rest
    else consHead c (jsSplitWs rest)

/-- JavaScript `str.split(" ")`: split at every single space character. -/
def jsSplitOnSpace : List Char → List (List Char)
  | [] => [[]]
  | c :: rest =>
    if c = ' ' then [] :: jsSplitOnSpace rest
    else consHead c (jsSplitOnSpace rest)

/-- JavaScript `str.replace(/\s+/g, " ")`: each maximal whitespace run
    becomes a single space. -/
def collapseWs : List Char → List Char
  | [] => []
  | c :: rest =>
    if isJsWs c then
      match rest with
      | [] => [' ']
      | c2 :: _ => if isJsWs c2 then collapseWs rest else ' ' :: collapseWs rest
    else c :: collapseWs rest

/-- JavaScript `str.trim()`: strip leading and trailing whitespace. -/
def jsTrim (l : List Char) : List Char :=
  ((l.dropWhile isJsWs).reverse.dropWhile isJsWs).reverse

/-- Maximal runs of characters satisfying `p` (empty runs do not occur). -/
def runsOf (p : Char → Bool) : List Char → List (List Char)
  | [] => []
  | c :: rest =>
    if p c then
      match rest with
      | [] => [[c]]
      | c2 :: _ => if p c2 then consHead c (runsOf p rest) else [c] :: runsOf p rest
    else runsOf p rest

/-- The whitespace-separated tokens of a text in the ordinary sense:
    its maximal runs of non-whitespace characters. -/
def wsTokens (l : List Char) : List (List Char) :=
  runsOf (fun c => !(isJsWs c)) l

/-- Whether a character list begins with a whitespace character. -/
def leadWs : List Char → Bool
  | [] => false
  | c :: _ => isJsWs c

/-- Whether a character list ends with a whitespace character. -/
def trailWs : List Char → Bool
  | [] => false
  | [c] => isJsWs c
  | _ :: c2 :: rest => trailWs (c2 :: rest)

/-- `calculateReadingTime` (route.ts lines 6-10): `wordsPerMinute = 200`,
    `wordCount = text.split(/\s+/).length`, result
    `Math.ceil(wordCount / wordsPerMinute)` (exact ceiling division). -/
def calculateReadingTime (text : String) : Nat :=
  let wordsPerMinute := 200
  let wordCount := (jsSplitWs text.data).length
  (wordCount + wordsPerMinute - 1) / wordsPerMinute

/-- The fixed stop-word set of `extractCleanKeywords` (route.ts lines 14-78). -/
def stopWords : List (List Char) :=
  ["the", "and", "for", "are", "but", "not", "you", "all", "can", "her",
   "was", "one", "our", "had", "will", "what", "your", "when", "him", "with",
   "has", "this", "that", "from", "they", "have", "more", "been", "were",
   "said", "each", "which", "their", "time", "into", "than", "only", "come",
   "some", "very", "after", "back", "other", "many", "them", "these", "may",
   "first", "well", "work", "get", "make", "about", "contact", "home",
   "page", "website", "menu", "toggle", "click", "here", "now",
   "today"].map String.data

/-- `cleanText` inside `extractCleanKeywords` (route.ts lines 81-85):
    lowercase, replace every character outside `\w` and `\s` by a space,
    collapse whitespace runs to single spaces, trim. -/
def cleanTextOf (text : String) : List Char :=
  jsTrim (collapseWs
    ((text.data.map Char.toLower).map
      (fun c => if isJsWordChar c || isJsWs c then c else ' ')))

/-- The regex test `word.match(/^\d+$/)`: a non-empty all-digit token. -/
def isPureNumber (w : List Char) : Bool :=
  !w.isEmpty && w.all (fun c => c.isDigit)

/-- The word filter of `extractCleanKeywords` (route.ts lines 88-90):
    length strictly between 3 and 20, not a stop word, not a pure number. -/
def keywordFilter (w : List Char) : Bool :=
  decide (w.length > 3) && decide (w.length < 20) &&
  !(stopWords.contains w) && !(isPureNumber w)

/-- The meaningful words of the text (route.ts lines 88-90). -/
def wordsOf (text : String) : List (List Char) :=
  (jsSplitOnSpace (cleanTextOf text)).filter keywordFilter

/-- One step of the frequency count `wordCount[word] = (wordCount[word] || 0) + 1`:
    increment the entry for `w`, appending a fresh entry if absent. -/
def bump (w : List Char) : List (List Char × Nat) → List (List Char × Nat)
  | [] => [(w, 1)]
  | (k, n) :: rest => if k = w then (k, n + 1) :: rest else (k, n) :: bump w rest

/-- The frequency table in first-occurrence order.  This is the order
    `Object.entries` produces for the JS object built in route.ts lines 93-96:
    none of the keys is an array-index-like string, because pure numbers are
    filtered out beforehand, so insertion order is preserved. -/
def countWords (ws : List (List Char)) : List (List Char × Nat) :=
  ws.foldl (fun acc w => bump w acc) []

/-- Insert an entry into a list sorted by strictly decreasing count, after
    all entries of greater-or-equal count (so the overall sort is stable). -/
def insertByCount (x : List Char × Nat) : List (List Char × Nat) → List (List Char × Nat)
  | [] => [x]
  | y :: ys => if x.2 > y.2 then x :: y :: ys else y :: insertByCount x ys

/-- `Array.prototype.sort(([, a], [, b]) => b - a)`: a stable sort by
    decreasing count (stability is guaranteed by ES2019). -/
def sortByCountDesc (l : List (List Char × Nat)) : List (List Char × Nat) :=
  l.foldl (fun acc x => insertByCount x acc) []

/-- An entry of the keyword list returned by `extractCleanKeywords`. -/
structure KeywordEntry where
  keyword : String
  frequency : Nat
  importance : String
deriving DecidableEq

/-- The importance tag (route.ts line 106). -/
def importanceOf (count : Nat) : String :=
  if count > 5 then "High" else if count > 3 then "Medium" else "Low"

/-- `extractCleanKeywords` (route.ts lines 13-108): frequency-count the
    filtered words, keep counts of at least 2, sort by decreasing
    frequency, keep the first 15, and tag each with its importance. -/
def extractCleanKeywords (text : String) : List KeywordEntry :=
  ((sortByCountDesc
      ((countWords (wordsOf text)).filter (fun p => decide (p.2 ≥ 2)))).take 15).map
    (fun p => ⟨String.mk p.1, p.2, importanceOf p.2⟩)

/-- The word filter exactly as the specification words it: stop-word
    removal and the 4-19 length window, with no exclusion of purely
    numeric tokens. -/
def specKeywordFilter (w : List Char) : Bool :=
  decide (4 ≤ w.length) && decide (w.length ≤ 19) && !(stopWords.contains w)

/-- The keyword pipeline as the specification states it (no pure-number
    exclusion anywhere). -/
def specExtractKeywords (text : String) : List KeywordEntry :=
  ((sortByCountDesc
      ((countWords ((jsSplitOnSpace (cleanTextOf text)).filter specKeywordFilter)).filter
        (fun p => decide (p.2 ≥ 2)))).take 15).map
    (fun p => ⟨String.mk p.1, p.2, importanceOf p.2⟩)

/-- The specification pipeline amended with the pure-number exclusion the
    code actually applies before counting. -/
def specExtractKeywordsAmended (text : String) : List KeywordEntry :=
  ((sortByCountDesc
      ((countWords ((jsSplitOnSpace (cleanTextOf text)).filter
          (fun w => specKeywordFilter w && !(isPureNumber w)))).filter
        (fun p => decide (p.2 ≥ 2)))).take 15).map
    (fun p => ⟨String.mk p.1, p.2, importanceOf p.2⟩)

/-- The `title_analysis` object of the report. -/
structure TitleAnalysis where
  length : Nat
  status : String
  score : Nat
  feedback : List String
deriving DecidableEq

/-- The `meta_description_analysis` object of the report. -/
structure MetaAnalysis where
  length : Nat
  status : String
  score : Nat
  feedback : List String
deriving DecidableEq

/-- The `content_analysis` object of the report. -/
structure ContentAnalysis where
  word_count : Nat
  character_count : Nat
  reading_time : Nat
  status : String
  score : Nat
  feedback : List String
deriving DecidableEq

/-- The `keyword_analysis` object of the report. -/
structure KeywordAnalysis where
  total_keywords : Nat
  status : String
  score : Nat
  feedback : List String
deriving DecidableEq

/-- The `overview` object of the report. -/
structure Overview where
  analysis_date : String
  website_url : String
  overall_score : Nat
  grade : String
  status : String
deriving DecidableEq

/-- The `page_details` object of the report. -/
structure PageDetails where
  title : String
  meta_description : String
  content_length : Nat
  reading_time : Nat
  headings_count : Nat
deriving DecidableEq

/-- One entry of `analysis.recommendations`. -/
structure Recommendation where
  priority : String
  category : String
  issue : String
  solution : String
  impact : String
deriving DecidableEq

/-- The `seo_factors` object of the report. -/
structure SeoFactors where
  title_analysis : TitleAnalysis
  meta_description_analysis : MetaAnalysis
  content_analysis : ContentAnalysis
  keyword_analysis : KeywordAnalysis
deriving DecidableEq

/-- The `analysis` object built by `generateSEOAnalysis`. -/
structure SEOAnalysis where
  overview : Overview
  page_details : PageDetails
  seo_factors : SeoFactors
  top_keywords : List KeywordEntry
  recommendations : List Recommendation
  action_items : List String
deriving DecidableEq

/-- The value returned by `generateSEOAnalysis` (route.ts lines 392-397). -/
structure GenerateResult where
  success : Bool
  analysis : SEOAnalysis
  message : String
  timestamp : String
deriving DecidableEq

/-- Fabricated title (route.ts line 140); an empty topic is falsy. -/
def fabricatedTitle (topic : String) : String :=
  if topic = "" then "" else "Best " ++ topic ++ " Guide for 2025"

/-- Fabricated meta description (route.ts lines 141-143). -/
def fabricatedMeta (topic : String) : String :=
  if topic = "" then ""
  else "Discover everything you need to know about " ++ topic ++
    ". Expert tips, strategies, and insights to help you succeed."

/-- JavaScript `s.repeat (n)`. -/
def repeatStr (s : String) : Nat → String
  | 0 => ""
  | n + 1 => s ++ repeatStr s n

/-- Fabricated body text (route.ts lines 144-148): one sentence about the
    topic repeated 10 times. -/
def fabricatedContent (topic : String) : String :=
  if topic = "" then ""
  else repeatStr ("This is a comprehensive guide about " ++ topic ++
    ". It covers all the essential aspects and provides valuable insights.") 10

/-- Fabricated headings string (route.ts lines 149-151). -/
def fabricatedHeadings (topic : String) : String :=
  if topic = "" then ""
  else "H1Main" ++ topic ++ "GuideH2KeyBenefitsH2StrategiesH3AdvancedTipsH2Conclusion"

/-- `headings.split(/(?=[A-Z][a-z])/)`: split before every position other
    than 0 at which an uppercase letter is followed by a lowercase letter
    (a zero-width lookahead match at position 0 does not split in JS). -/
def headingSplitAux : List Char → List Char → List (List Char)
  | [], acc => [acc.reverse]
  | c :: rest, acc =>
    if c.isUpper && (match rest with | c2 :: _ => c2.isLower | [] => false) then
      acc.reverse :: headingSplitAux rest [c]
    else
      headingSplitAux rest (c :: acc)

/-- `headings_count` (route.ts line 159): for a truthy headings string,
    the number of lookahead-split fragments whose trimmed length
    exceeds 2; an empty headings string gives 0. -/
def headingsCountOf (headings : String) : Nat :=
  if headings = "" then 0
  else
    ((match headings.data with
      | [] => [[]]
      | c :: rest => headingSplitAux rest [c]).filter
        (fun h => decide ((jsTrim h).length > 2))).length

/-- Title banding (route.ts lines 171-191): status, score and feedback as
    functions of the title length. -/
def titleBand (len : Nat) : String × Nat × List String :=
  if len > 0 then
    if len ≥ 30 ∧ len ≤ 60 then
      ("Excellent", 25, ["✅ Perfect title length"])
    else if len ≥ 20 ∧ len < 30 then
      ("Good", 15, ["⚠️ Title could be longer for better SEO"])
    else if len > 60 then
      ("Too Long", 10, ["❌ Title is too long, may be truncated in search results"])
    else
      ("Too Short", 5, ["❌ Title is too short, add more descriptive words"])
  else ("Missing", 0, ["❌ Missing page title - this is critical for SEO"])

/-- The `title_analysis` object (route.ts lines 162-194). -/
def titleAnalysisOf (title : String) : TitleAnalysis :=
  ⟨title.data.length, (titleBand title.data.length).1,
   (titleBand title.data.length).2.1, (titleBand title.data.length).2.2⟩

/-- Meta-description banding (route.ts lines 205-225). -/
def metaBand (len : Nat) : String × Nat × List String :=
  if len > 0 then
    if len ≥ 120 ∧ len ≤ 160 then
      ("Excellent", 20, ["✅ Perfect meta description length"])
    else if len ≥ 100 ∧ len < 120 then
      ("Good", 12, ["⚠️ Meta description could be slightly longer"])
    else if len > 160 then
      ("Too Long", 8, ["❌ Meta description may be truncated in search results"])
    else
      ("Too Short", 5, ["❌ Meta description is too short"])
  else ("Missing", 0, ["❌ Missing meta description - add a compelling summary"])

/-- The `meta_description_analysis` object (route.ts lines 196-228). -/
def metaAnalysisOf (metaDescription : String) : MetaAnalysis :=
  ⟨metaDescription.data.length, (metaBand metaDescription.data.length).1,
   (metaBand metaDescription.data.length).2.1, (metaBand metaDescription.data.length).2.2⟩

/-- Content banding (route.ts lines 241-263), on the character length and
    the word count of the content. -/
def contentBand (len wc : Nat) : String × Nat × List String :=
  if len > 0 then
    if wc ≥ 1000 then
      ("Excellent", 25, ["✅ Great content length for SEO"])
    else if wc ≥ 500 then
      ("Good", 18, ["✅ Good content length"])
    else if wc ≥ 300 then
      ("Fair", 12, ["⚠️ Content length is acceptable but could be expanded"])
    else
      ("Too Short", 5, ["❌ Content is too short, add more valuable information"])
  else ("Insufficient", 0, ["❌ No content found on the page"])

/-- The `content_analysis` object (route.ts lines 230-266):
    `word_count = contentText.split(/\s+/).length`. -/
def contentAnalysisOf (contentText : String) (reading_time : Nat) : ContentAnalysis :=
  ⟨(jsSplitWs contentText.data).length, contentText.data.length, reading_time,
   (contentBand contentText.data.length (jsSplitWs contentText.data).length).1,
   (contentBand contentText.data.length (jsSplitWs contentText.data).length).2.1,
   (contentBand contentText.data.length (jsSplitWs contentText.data).length).2.2⟩

/-- Keyword banding (route.ts lines 277-292), on the number of keywords. -/
def keywordBand (numKeywords : Nat) : String × Nat × List String :=
  if numKeywords ≥ 10 then
    ("Excellent", 20, ["✅ Good keyword variety found"])
  else if numKeywords ≥ 5 then
    ("Good", 12, ["✅ Decent keyword coverage"])
  else if numKeywords ≥ 2 then
    ("Fair", 8, ["⚠️ Limited keyword variety"])
  else ("Poor", 0, ["❌ Very few meaningful keywords found"])

/-- The `keyword_analysis` object (route.ts lines 268-295). -/
def keywordAnalysisOf (numKeywords : Nat) : KeywordAnalysis :=
  ⟨numKeywords, (keywordBand numKeywords).1,
   (keywordBand numKeywords).2.1, (keywordBand numKeywords).2.2⟩

/-- The grade and status thresholds (route.ts lines 304-324). -/
def gradeStatusOf (score : Nat) : String × String :=
  if score ≥ 90 then ("A+", "Excellent")
  else if score ≥ 80 then ("A", "Very Good")
  else if score ≥ 70 then ("B", "Good")
  else if score ≥ 60 then ("C", "Fair")
  else if score ≥ 50 then ("D", "Poor")
  else ("F", "Needs Immediate Attention")

/-- The letter grade assigned to a score. -/
def gradeOf (score : Nat) : String := (gradeStatusOf score).1

/-- Rank of a letter grade, higher meaning better. -/
def gradeRank : String → Nat
  | "A+" => 5
  | "A" => 4
  | "B" => 3
  | "C" => 2
  | "D" => 1
  | _ => 0

/-- The recommendation objects pushed in route.ts lines 330-383, in push
    order, as functions of the sub-scores and the headings count. -/
def recommendationsOf (titleScore metaScore contentScore keywordScore headings_count : Nat) :
    List Recommendation :=
  (if titleScore < 20 then
    [⟨"High", "Title Optimization", "Page title needs improvement",
      "Create a compelling title between 30-60 characters that includes your main keyword",
      "High - Titles are crucial for search rankings and click-through rates"⟩]
   else []) ++
  (if metaScore < 15 then
    [⟨"High", "Meta Description", "Meta description is missing or poorly optimized",
      "Write a compelling 120-160 character description that summarizes your page content",
      "Medium - Improves click-through rates from search results"⟩]
   else []) ++
  (if contentScore < 20 then
    [⟨"Medium", "Content Quality", "Content length is insufficient",
      "Expand content to at least 500 words with valuable, relevant information",
      "High - More content gives search engines more context about your page"⟩]
   else []) ++
  (if keywordScore < 15 then
    [⟨"Medium", "Keyword Optimization", "Limited keyword variety",
      "Include more relevant keywords naturally throughout your content",
      "Medium - Better keyword coverage helps with various search terms"⟩]
   else []) ++
  (if headings_count < 3 then
    [⟨"Low", "Content Structure", "Insufficient heading structure",
      "Add more H1, H2, H3 headings to structure your content better",
      "Low - Improves readability and helps search engines understand content structure"⟩]
   else [])

/-- The action items pushed in route.ts lines 330-390, in push order. -/
def actionItemsOf (titleScore metaScore contentScore keywordScore headings_count overall : Nat) :
    List String :=
  (if titleScore < 20 then ["✏️ Rewrite page title (30-60 characters)"] else []) ++
  (if metaScore < 15 then ["✏️ Write compelling meta description (120-160 characters)"] else []) ++
  (if contentScore < 20 then ["📝 Expand content to 500+ words"] else []) ++
  (if keywordScore < 15 then ["🔍 Research and add relevant keywords"] else []) ++
  (if headings_count < 3 then ["📋 Add more headings (H1, H2, H3)"] else []) ++
  (if overall < 70 then
    ["🚀 Focus on high-priority items first",
     "📊 Re-run analysis after making changes",
     "⏰ Schedule monthly SEO check-ups"]
   else [])

/-- `generateSEOAnalysis` (route.ts lines 111-398) for a string topic.
    Every `new Date().toISOString()` read during the call is modelled by
    the explicit clock value `now`.  `websiteData.websiteUrl || "Unknown"`
    and the `contentText || websiteData.mainTopic` argument of the keyword
    extraction use JS falsiness of the empty string. -/
def generateSEOAnalysisAt (now websiteUrl mainTopic : String) : GenerateResult :=
  let title := fabricatedTitle mainTopic
  let metaDescription := fabricatedMeta mainTopic
  let contentText := fabricatedContent mainTopic
  let headings := fabricatedHeadings mainTopic
  let reading_time := calculateReadingTime contentText
  let headings_count := headingsCountOf headings
  let titleA := titleAnalysisOf title
  let metaA := metaAnalysisOf metaDescription
  let contentA := contentAnalysisOf contentText reading_time
  let keywords := extractCleanKeywords (if contentText = "" then mainTopic else contentText)
  let keywordA := keywordAnalysisOf keywords.length
  let totalScore := titleA.score + metaA.score + contentA.score + keywordA.score +
    (if headings_count > 0 then 10 else 0)
  let overall := min totalScore 100
  let gs := gradeStatusOf overall
  { success := true
    analysis :=
      { overview := ⟨now, if websiteUrl = "" then "Unknown" else websiteUrl, overall, gs.1, gs.2⟩
        page_details := ⟨title, metaDescription, contentText.data.length, reading_time, headings_count⟩
        seo_factors := ⟨titleA, metaA, contentA, keywordA⟩
        top_keywords := keywords
        recommendations := recommendationsOf titleA.score metaA.score contentA.score keywordA.score headings_count
        action_items := actionItemsOf titleA.score metaA.score contentA.score keywordA.score headings_count overall }
    message := "SEO analysis completed. Your website scored " ++ toString overall ++
      "/100 (Grade: " ++ gs.1 ++ ")"
    timestamp := now }

/-- `generateSEOAnalysis` on a JS-level topic that may be absent
    (`undefined`).  When `mainTopic` is absent, all four fabricated-content
    ternaries take their falsy branch, so `contentText` is the empty
    string; line 269 then calls `extractCleanKeywords(undefined)`, whose
    first step `text.toLowerCase()` throws a `TypeError`, so the call
    produces no result (`none`). -/
def generateSEOAnalysisJS (now websiteUrl : String) : Option String → Option GenerateResult
  | none => none
  | some topic => some (generateSEOAnalysisAt now websiteUrl topic)

/-- Erase the two wall-clock fields of a `generateSEOAnalysis` result
    (`analysis.overview.analysis_date` and the top-level `timestamp`). -/
def stripDates (r : GenerateResult) : GenerateResult :=
  { r with
    timestamp := ""
    analysis :=
      { r.analysis with
        overview := { r.analysis.overview with analysis_date := "" } } }

/-- The band table for the title claim, written exactly as the
    specification sentence states it. -/
def titleBandSpec (len : Nat) : Nat × String :=
  if len = 0 then (0, "Missing")
  else if 30 ≤ len ∧ len ≤ 60 then (25, "Excellent")
  else if 20 ≤ len ∧ len ≤ 29 then (15, "Good")
  else if 60 < len then (10, "Too Long")
  else (5, "Too Short")

/-- The parsed JSON request body `{websiteUrl, mainTopic, email?}`; a field
    may be absent (`none`) or present as a string. -/
structure RequestBody where
  websiteUrl : Option String
  mainTopic : Option String
  email : Option String
deriving DecidableEq

/-- JS truthiness of an optional string field: absent and the empty
    string are falsy. -/
def truthy : Option String → Bool
  | none => false
  | some s => !(s == "")

/-- `keyword_opportunities` in the response (route.ts lines 423-431). -/
structure KeywordOpportunities where
  total_found : Nat
  priority_keywords : List String
  long_tail_opportunities : List String
deriving DecidableEq

/-- `content_gaps` in the response (route.ts lines 432-439). -/
structure ContentGaps where
  missing_topics : List String
  gap_count : Nat
  coverage_score : Nat
deriving DecidableEq

/-- `competitor_analysis` in the response (route.ts lines 440-443). -/
structure CompetitorAnalysis where
  competitors_found : Nat
  competitor_domains : List String
deriving DecidableEq

/-- The `seo_report` object shared by both route variants. -/
structure SeoReport where
  analysis_date : String
  seo_score : Nat
  current_keywords : List String
  keyword_opportunities : KeywordOpportunities
  content_gaps : ContentGaps
  competitor_analysis : CompetitorAnalysis
  recommendations : List String
  next_steps : List String
deriving DecidableEq

/-- `lead_info` in the response. -/
structure LeadInfo where
  email : String
  analysis_date : String
deriving DecidableEq

/-- The single report object of the mock route's response array
    (route.ts lines 417-453). -/
structure ReportItem where
  seo_report : SeoReport
  lead_info : LeadInfo
  detailed_analysis : SEOAnalysis
deriving DecidableEq

/-- `request_info` of the webhook route's version-8 response template. -/
structure RequestInfo where
  website_url : String
  main_topic : String
  email : Option String
deriving DecidableEq

/-- The webhook route's formatted response (part_003 lines 40-76). -/
structure FormattedResponse where
  version : Nat
  timestamp : String
  request_info : RequestInfo
  seo_report : SeoReport
  lead_info : LeadInfo
  detailed_analysis : Option String
deriving DecidableEq

/-- The JSON body of an HTTP response from either handler: the mock
    route's array containing one report object, the webhook route's
    response object, or a failure body of the shape `{error, details?}`. -/
inductive ResponseBody where
  | reportArray : ReportItem → ResponseBody
  | reportObject : FormattedResponse → ResponseBody
  | errorBody : String → Option String → ResponseBody
deriving DecidableEq

/-- An HTTP response: status code and JSON body. -/
structure ApiResponse where
  status : Nat
  body : ResponseBody
deriving DecidableEq

/-- The report item the mock route builds from `analysisResult2`
    (route.ts lines 417-453), with all `new Date()` reads modelled by `now`. -/
def mockReportItem (now websiteUrl mainTopic : String) (email : Option String) : ReportItem :=
  let r := generateSEOAnalysisAt now websiteUrl mainTopic
  { seo_report :=
      { analysis_date := now
        seo_score := r.analysis.overview.overall_score
        current_keywords := (r.analysis.top_keywords.take 3).map (fun k => k.keyword)
        keyword_opportunities :=
          { total_found := r.analysis.top_keywords.length
            priority_keywords :=
              (r.analysis.top_keywords.filter (fun k => k.importance == "High")).map
                (fun k => k.keyword)
            long_tail_opportunities :=
              (r.analysis.top_keywords.filter (fun k => !(k.importance == "High"))).map
                (fun k => k.keyword) }
        content_gaps :=
          { missing_topics :=
              (r.analysis.recommendations.filter (fun rc => rc.category == "Content Quality")).map
                (fun rc => rc.issue)
            gap_count :=
              (r.analysis.recommendations.filter (fun rc => rc.category == "Content Quality")).length
            coverage_score := min 100 (r.analysis.overview.overall_score + 20) }
        competitor_analysis :=
          ⟨3, ["competitor1.com", "competitor2.com", "competitor3.com"]⟩
        recommendations := r.analysis.recommendations.map (fun rc => rc.solution)
        next_steps := r.analysis.action_items }
    lead_info := ⟨email.getD "", now⟩
    detailed_analysis := r.analysis }

/-- The mock route's `POST` handler (route.ts lines 400-465).  The
    argument `parsed` is the outcome of `request.json()`: `Except.error`
    when parsing throws (its message), `Except.ok` with the parsed body
    otherwise.  A thrown error is caught and answered with status 500 and
    the generic message; a body with a falsy `websiteUrl` or `mainTopic`
    is answered with status 400. -/
def POSTmock (now : String) (parsed : Except String RequestBody) : ApiResponse :=
  match parsed with
  | .error msg =>
    ⟨500, .errorBody "Failed to process SEO analysis. Please try again later." (some msg)⟩
  | .ok body =>
    if truthy body.websiteUrl && truthy body.mainTopic then
      ⟨200, .reportArray
        (mockReportItem now (body.websiteUrl.getD "") (body.mainTopic.getD "") body.email)⟩
    else ⟨400, .errorBody "Website URL and Main Topic are required" none⟩

/-- The data the webhook may return (part_003 lines 49-75), all fields
    optional.  A nested optional chain such as
    `webhookData?.keyword_opportunities?.total_found` is modelled by one
    flat optional field (`none` when any link of the chain is missing),
    and the opaque `detailed_analysis` payload by its JSON text. -/
structure WebhookData where
  analysis_date : Option String
  seo_score : Option Nat
  score : Option Nat
  current_keywords : Option (List String)
  keywords : Option (List String)
  ko_total_found : Option Nat
  total_keywords : Option Nat
  ko_priority_keywords : Option (List String)
  priority_keywords : Option (List String)
  ko_long_tail_opportunities : Option (List String)
  long_tail_keywords : Option (List String)
  cg_missing_topics : Option (List String)
  missing_topics : Option (List String)
  cg_gap_count : Option Nat
  gap_count : Option Nat
  cg_coverage_score : Option Nat
  coverage : Option Nat
  ca_competitors_found : Option Nat
  competitors_count : Option Nat
  ca_competitor_domains : Option (List String)
  competitors : Option (List String)
  recommendations : Option (List String)
  suggested_improvements : Option (List String)
  next_steps : Option (List String)
  action_items : Option (List String)
  detailed_analysis : Option String
deriving DecidableEq

/-- JS `a || b` for an optional string value: absent or empty falls back. -/
def jsOrStr (a : Option String) (b : String) : String :=
  match a with
  | some s => if s == "" then b else s
  | none => b

/-- JS `a || b` for an optional number value: absent or 0 falls back. -/
def jsOrNum (a : Option Nat) (b : Nat) : Nat :=
  match a with
  | some n => if n == 0 then b else n
  | none => b

/-- JS `a || b` for an optional array value: arrays are truthy even when
    empty, so only an absent value falls back. -/
def jsOrList (a : Option (List String)) (b : List String) : List String :=
  match a with
  | some l => l
  | none => b

/-- The version-8 formatted response the webhook route builds from the
    webhook data (part_003 lines 37-76). -/
def formatWebhookResponse (now websiteUrl mainTopic : String) (email : Option String)
    (wd : WebhookData) : FormattedResponse :=
  { version := 8
    timestamp := now
    request_info := ⟨websiteUrl, mainTopic, if truthy email then email else none⟩
    seo_report :=
      { analysis_date := jsOrStr wd.analysis_date now
        seo_score := jsOrNum wd.seo_score (jsOrNum wd.score 0)
        current_keywords := jsOrList wd.current_keywords (jsOrList wd.keywords [])
        keyword_opportunities :=
          { total_found := jsOrNum wd.ko_total_found (jsOrNum wd.total_keywords 0)
            priority_keywords :=
              jsOrList wd.ko_priority_keywords (jsOrList wd.priority_keywords [])
            long_tail_opportunities :=
              jsOrList wd.ko_long_tail_opportunities (jsOrList wd.long_tail_keywords []) }
        content_gaps :=
          { missing_topics := jsOrList wd.cg_missing_topics (jsOrList wd.missing_topics [])
            gap_count := jsOrNum wd.cg_gap_count (jsOrNum wd.gap_count 0)
            coverage_score := jsOrNum wd.cg_coverage_score (jsOrNum wd.coverage 0) }
        competitor_analysis :=
          { competitors_found := jsOrNum wd.ca_competitors_found (jsOrNum wd.competitors_count 0)
            competitor_domains := jsOrList wd.ca_competitor_domains (jsOrList wd.competitors []) }
        recommendations := jsOrList wd.recommendations (jsOrList wd.suggested_improvements [])
        next_steps := jsOrList wd.next_steps (jsOrList wd.action_items []) }
    lead_info := ⟨email.getD "", now⟩
    detailed_analysis := if truthy wd.detailed_analysis then wd.detailed_analysis else none }

/-- Outcome of the webhook round trip in the webhook route: the `fetch`
    call throwing, a non-ok HTTP status, a webhook body that fails to
    parse as JSON, or parsed webhook data. -/
inductive WebhookOutcome where
  | fetchFailed : String → WebhookOutcome
  | respNotOk : Nat → String → WebhookOutcome
  | badJson : WebhookOutcome
  | respOk : WebhookData → WebhookOutcome
deriving DecidableEq

/-- Whether the webhook round trip failed. -/
def isUpstreamFailure : WebhookOutcome → Bool
  | .respOk _ => false
  | _ => true

/-- The webhook route's `POST` handler (part_003 lines 5-91).  Every
    failure of the round trip is thrown and caught by the outer handler,
    which answers 500 with the generic message and the thrown message as
    `details`; a non-ok webhook status throws
    `Webhook responded with status: <status> <statusText>`, and a webhook
    body that is not JSON throws `Invalid response from webhook service`. -/
def POSTwebhook (now : String) (parsed : Except String RequestBody)
    (upstream : WebhookOutcome) : ApiResponse :=
  match parsed with
  | .error msg =>
    ⟨500, .errorBody "Failed to process SEO analysis. Please try again later." (some msg)⟩
  | .ok body =>
    if truthy body.websiteUrl && truthy body.mainTopic then
      match upstream with
      | .fetchFailed msg =>
        ⟨500, .errorBody "Failed to process SEO analysis. Please try again later." (some msg)⟩
      | .respNotOk st stTxt =>
        ⟨500, .errorBody "Failed to process SEO analysis. Please try again later."
          (some ("Webhook responded with status: " ++ toString st ++ " " ++ stTxt))⟩
      | .badJson =>
        ⟨500, .errorBody "Failed to process SEO analysis. Please try again later."
          (some "Invalid response from webhook service")⟩
      | .respOk wd =>
        ⟨200, .reportObject
          (formatWebhookResponse now (body.websiteUrl.getD "") (body.mainTopic.getD "")
            body.email wd)⟩
    else ⟨400, .errorBody "Website URL and Main Topic are required" none⟩

theorem consHead_ne_nil (c : Char) (r : List (List Char)) : consHead c r ≠ [] := by
  cases r <;> simp [consHead]

theorem length_consHead (c : Char) (r : List (List Char)) :
    (consHead c r).length = if r = [] then 1 else r.length := by
  cases r <;> simp [consHead]

theorem jsSplitWs_ne_nil (l : List Char) : jsSplitWs l ≠ [] := by
  induction l with
  | nil => simp [jsSplitWs]
  | cons c rest ih =>
    unfold jsSplitWs
    by_cases h : isJsWs c
    · cases rest with
      | nil => simp [h]
      | cons c2 r2 => by_cases h2 : isJsWs c2 <;> simp [h, h2, ih]
    · simp only [h, Bool.false_eq_true, if_false]
      exact consHead_ne_nil _ _

theorem runsOf_ne_nil_of_head {p : Char → Bool} {c : Char} (rest : List Char)
    (h : p c = true) : runsOf p (c :: rest) ≠ [] := by
  unfold runsOf
  cases rest with
  | nil => simp [h]
  | cons c2 r2 =>
    by_cases h2 : p c2 <;> simp [h, h2, consHead_ne_nil]

theorem jsSplitWs_cons_ws_ws {c c2 : Char} (r : List Char)
    (h : isJsWs c = true) (h2 : isJsWs c2 = true) :
    jsSplitWs (c :: c2 :: r) = jsSplitWs (c2 :: r) := by
  simp [jsSplitWs, h, h2]

theorem jsSplitWs_cons_ws_nonws {c c2 : Char} (r : List Char)
    (h : isJsWs c = true) (h2 : isJsWs c2 = false) :
    jsSplitWs (c :: c2 :: r) = [] :: jsSplitWs (c2 :: r) := by
  simp [jsSplitWs, h, h2]

theorem jsSplitWs_cons_nonws {c : Char} (r : List Char) (h : isJsWs c = false) :
    jsSplitWs (c :: r) = consHead c (jsSplitWs r) := by
  simp [jsSplitWs, h]

theorem runsOf_cons_nonp {p : Char → Bool} {c : Char} (r : List Char)
    (h : p c = false) : runsOf p (c :: r) = runsOf p r := by
  simp [runsOf, h]

theorem runsOf_cons_p_nonp {p : Char → Bool} {c c2 : Char} (r : List Char)
    (h : p c = true) (h2 : p c2 = false) :
    runsOf p (c :: c2 :: r) = [c] :: runsOf p (c2 :: r) := by
  simp [runsOf, h, h2]

theorem runsOf_cons_p_p {p : Char → Bool} {c c2 : Char} (r : List Char)
    (h : p c = true) (h2 : p c2 = true) :
    runsOf p (c :: c2 :: r) = consHead c (runsOf p (c2 :: r)) := by
  simp [runsOf, h, h2]

theorem jsSplitWs_length_runs (l : List Char) :
    (jsSplitWs l).length =
      (runsOf (fun c => !(isJsWs c)) l).length +
      (if leadWs l then 1 else 0) + (if trailWs l then 1 else 0) +
      (if l = [] then 1 else 0) := by
  induction l with
  | nil => simp [jsSplitWs, runsOf, leadWs, trailWs]
  | cons c rest ih =>
    cases rest with
    | nil =>
      by_cases h : isJsWs c <;>
        simp [jsSplitWs, runsOf, leadWs, trailWs, h, consHead]
    | cons c2 r2 =>
      have htrail : trailWs (c :: c2 :: r2) = trailWs (c2 :: r2) := by
        simp [trailWs]
      by_cases h : isJsWs c <;> by_cases h2 : isJsWs c2
      · -- whitespace, whitespace: same fragments, same runs, same lead
        rw [jsSplitWs_cons_ws_ws r2 h h2,
          runsOf_cons_nonp (c2 :: r2) (p := fun c => !(isJsWs c)) (by simp [h]),
          htrail, ih]
        simp [leadWs, h, h2]
      · -- whitespace then non-whitespace: one extra empty lead fragment
        rw [jsSplitWs_cons_ws_nonws r2 h (by simpa using h2),
          runsOf_cons_nonp (c2 :: r2) (p := fun c => !(isJsWs c)) (by simp [h]),
          htrail]
        simp only [List.length_cons, ih]
        simp [leadWs, h, h2]
        omega
      · -- non-whitespace then whitespace: run [c] closes here
        have hne := jsSplitWs_ne_nil (c2 :: r2)
        rw [jsSplitWs_cons_nonws (c2 :: r2) (by simpa using h),
          runsOf_cons_p_nonp r2 (p := fun c => !(isJsWs c)) (by simp [h]) (by simp [h2]),
          htrail, length_consHead]
        simp only [hne, if_false, List.length_cons, ih]
        simp [leadWs, h, h2]
      · -- non-whitespace, non-whitespace: c joins the head run
        have hne := jsSplitWs_ne_nil (c2 :: r2)
        have hrne : runsOf (fun c => !(isJsWs c)) (c2 :: r2) ≠ [] :=
          runsOf_ne_nil_of_head r2 (by simp [h2])
        rw [jsSplitWs_cons_nonws (c2 :: r2) (by simpa using h),
          runsOf_cons_p_p r2 (p := fun c => !(isJsWs c)) (by simp [h]) (by simp [h2]),
          htrail, length_consHead, length_consHead]
        simp only [hne, hrne, if_false, ih]
        simp [leadWs, h, h2]

theorem jsSplitWs_length_eq_runs (l : List Char) (h0 : l ≠ [])
    (h1 : leadWs l = false) (h2 : trailWs l = false) :
    (jsSplitWs l).length = (wsTokens l).length := by
  have h := jsSplitWs_length_runs l
  rw [h1, h2] at h
  simp only [h0, if_false, Bool.false_eq_true] at h
  simpa [wsTokens] using h

theorem mem_insertByCount {x y : List Char × Nat} {l : List (List Char × Nat)}
    (h : x ∈ insertByCount y l) : x = y ∨ x ∈ l := by
  induction l with
  | nil => simpa [insertByCount] using h
  | cons a l ih =>
    rw [insertByCount] at h
    split at h
    · exact List.mem_cons.mp h
    · rcases List.mem_cons.mp h with rfl | h2
      · exact Or.inr (List.mem_cons_self _ _)
      · rcases ih h2 with h3 | h3
        · exact Or.inl h3
        · exact Or.inr (List.mem_cons_of_mem a h3)

theorem mem_sortByCountDesc_aux {x : List Char × Nat} :
    ∀ (l acc : List (List Char × Nat)),
      x ∈ l.foldl (fun acc y => insertByCount y acc) acc → x ∈ acc ∨ x ∈ l := by
  intro l
  induction l with
  | nil => intro acc h; exact Or.inl h
  | cons a l ih =>
    intro acc h
    rcases ih (insertByCount a acc) h with h | h
    · rcases mem_insertByCount h with h | h
      · exact Or.inr (by simp [h])
      · exact Or.inl h
    · exact Or.inr (List.mem_cons_of_mem _ h)

theorem mem_sortByCountDesc {x : List Char × Nat} {l : List (List Char × Nat)}
    (h : x ∈ sortByCountDesc l) : x ∈ l := by
  rcases mem_sortByCountDesc_aux l [] h with h | h
  · simp at h
  · exact h

theorem mem_bump {k w : List Char} {n : Nat} {l : List (List Char × Nat)}
    (h : (k, n) ∈ bump w l) : k = w ∨ ∃ m, (k, m) ∈ l := by
  induction l with
  | nil =>
    simp only [bump, List.mem_singleton, Prod.mk.injEq] at h
    exact Or.inl h.1
  | cons a l ih =>
    rcases a with ⟨k0, n0⟩
    rw [bump] at h
    split at h
    · rename_i hkw
      rcases List.mem_cons.mp h with hx | hx
      · exact Or.inl ((Prod.ext_iff.mp hx).1.trans hkw)
      · exact Or.inr ⟨n, List.mem_cons_of_mem _ hx⟩
    · rcases List.mem_cons.mp h with hx | hx
      · have hk : k = k0 := congrArg Prod.fst hx
        exact Or.inr ⟨n0, by rw [hk]; exact List.mem_cons_self _ _⟩
      · rcases ih hx with h3 | h3
        · exact Or.inl h3
        · rcases h3 with ⟨m, hm⟩
          exact Or.inr ⟨m, List.mem_cons_of_mem _ hm⟩

theorem mem_countWords_aux {k : List Char} {n : Nat} :
    ∀ (ws : List (List Char)) (acc : List (List Char × Nat)),
      (k, n) ∈ ws.foldl (fun acc w => bump w acc) acc →
      (∃ m, (k, m) ∈ acc) ∨ k ∈ ws := by
  intro ws
  induction ws with
  | nil => intro acc h; exact Or.inl ⟨n, h⟩
  | cons w ws ih =>
    intro acc h
    rcases ih (bump w acc) h with ⟨m, hm⟩ | h
    · rcases mem_bump hm with h | h
      · exact Or.inr (by simp [h])
      · exact Or.inl h
    · exact Or.inr (List.mem_cons_of_mem _ h)

theorem mem_countWords {k : List Char} {n : Nat} {ws : List (List Char)}
    (h : (k, n) ∈ countWords ws) : k ∈ ws := by
  rcases mem_countWords_aux ws [] h with ⟨m, hm⟩ | h
  · simp at hm
  · exact h

/-- Every entry of `extractCleanKeywords text` arises from a word that
    passed the word filter, with its count at least 2 and its importance
    computed from the count. -/
theorem mem_extractCleanKeywords {text : String} {e : KeywordEntry}
    (h : e ∈ extractCleanKeywords text) :
    ∃ w n, e = ⟨String.mk w, n, importanceOf n⟩ ∧ keywordFilter w = true ∧ 2 ≤ n := by
  unfold extractCleanKeywords at h
  rcases List.mem_map.mp h with ⟨p, hp, he⟩
  have hp2 := mem_sortByCountDesc (List.mem_of_mem_take hp)
  rcases List.mem_filter.mp hp2 with ⟨hmem2, hcnt⟩
  have hw : p.1 ∈ wordsOf text := mem_countWords (k := p.1) (n := p.2) (by simpa using hmem2)
  rcases List.mem_filter.mp hw with ⟨_, hfilter⟩
  exact ⟨p.1, p.2, he.symm, hfilter, by simpa using hcnt⟩

/-- A word passing the filter has at least one non-digit character. -/
theorem keywordFilter_has_nondigit {w : List Char}
    (h : keywordFilter w = true) : w.any (fun c => !(c.isDigit)) = true := by
  unfold keywordFilter at h
  simp only [Bool.and_eq_true, decide_eq_true_eq, Bool.not_eq_true'] at h
  obtain ⟨⟨⟨hlen, _⟩, _⟩, hnum⟩ := h
  have hempty : w.isEmpty = false := by
    cases w with
    | nil => simp at hlen
    | cons a l => simp
  unfold isPureNumber at hnum
  rw [hempty] at hnum
  simp only [Bool.not_false, Bool.true_and] at hnum
  rw [List.any_eq_true]
  by_contra hc
  push_neg at hc
  have : w.all (fun c => c.isDigit) = true := by
    rw [List.all_eq_true]
    intro c hcmem
    have := hc c hcmem
    simpa using this
  rw [this] at hnum
  exact Bool.noConfusion hnum

/-- The two complementary filters of a list have lengths summing to the
    length of the list. -/
theorem length_filter_add_length_filter_not {α : Type} (p : α → Bool) (l : List α) :
    (l.filter p).length + (l.filter (fun x => !(p x))).length = l.length := by
  induction l with
  | nil => rfl
  | cons a l ih =>
    by_cases h : p a <;> simp [List.filter, h, ← ih] <;> omega

/-- The pure-number exclusion is exactly what separates the code's word
    filter from the one the specification describes. -/
theorem keywordFilter_eq_spec (w : List Char) :
    keywordFilter w = (specKeywordFilter w && !(isPureNumber w)) := by
  unfold keywordFilter specKeywordFilter
  rw [show decide (w.length > 3) = decide (4 ≤ w.length) from
      decide_eq_decide.mpr (by omega),
    show decide (w.length < 20) = decide (w.length ≤ 19) from
      decide_eq_decide.mpr (by omega)]

theorem titleBand_score_le (len : Nat) : (titleBand len).2.1 ≤ 25 := by
  unfold titleBand
  split_ifs <;> decide

theorem metaBand_score_le (len : Nat) : (metaBand len).2.1 ≤ 20 := by
  unfold metaBand
  split_ifs <;> decide

theorem contentBand_score_le (len wc : Nat) : (contentBand len wc).2.1 ≤ 25 := by
  unfold contentBand
  split_ifs <;> decide

theorem keywordBand_score_le (n : Nat) : (keywordBand n).2.1 ≤ 20 := by
  unfold keywordBand
  split_ifs <;> decide

/-- C1: for every clock value, website URL and topic string, the overall
    score of `generateSEOAnalysis` lies in [0, 100], and it equals the sum
    of the title, meta, content and keyword sub-scores plus the 10-point
    heading bonus, capped at 100 by `Math.min`. -/
theorem claim_C1_overall_score_bounds (now url topic : String) :
    (generateSEOAnalysisAt now url topic).analysis.overview.overall_score ≤ 100 ∧
    0 ≤ (generateSEOAnalysisAt now url topic).analysis.overview.overall_score ∧
    (generateSEOAnalysisAt now url topic).analysis.overview.overall_score =
      min ((generateSEOAnalysisAt now url topic).analysis.seo_factors.title_analysis.score +
           (generateSEOAnalysisAt now url topic).analysis.seo_factors.meta_description_analysis.score +
           (generateSEOAnalysisAt now url topic).analysis.seo_factors.content_analysis.score +
           (generateSEOAnalysisAt now url topic).analysis.seo_factors.keyword_analysis.score +
           (if (generateSEOAnalysisAt now url topic).analysis.page_details.headings_count > 0
            then 10 else 0)) 100 :=
  ⟨min_le_right _ _, Nat.zero_le _, rfl⟩

/-- C2 counterexample: the pipeline exactly as the specification words it
    (no pure-number exclusion) disagrees with `extractCleanKeywords` on a
    text whose only repeated 4-to-19-character token is purely numeric. -/
theorem claim_C2_counterexample :
    extractCleanKeywords "1234 1234" ≠ specExtractKeywords "1234 1234" := by decide

/-- C2 (amended): `extractCleanKeywords` equals the claimed pipeline once
    purely numeric tokens are also excluded, and consequently the result
    has at most 15 entries, every frequency is at least 2, and each
    importance tag follows the >5 / >3 thresholds. -/
theorem claim_C2_keyword_pipeline (text : String) :
    extractCleanKeywords text = specExtractKeywordsAmended text ∧
    (extractCleanKeywords text).length ≤ 15 ∧
    ∀ e ∈ extractCleanKeywords text,
      2 ≤ e.frequency ∧
      e.importance =
        (if e.frequency > 5 then "High" else if e.frequency > 3 then "Medium" else "Low") := by
  refine ⟨?_, ?_, ?_⟩
  · have hfun : keywordFilter = fun w => specKeywordFilter w && !(isPureNumber w) :=
      funext keywordFilter_eq_spec
    simp only [extractCleanKeywords, specExtractKeywordsAmended, wordsOf, hfun]
  · unfold extractCleanKeywords
    rw [List.length_map, List.length_take]
    exact min_le_left _ _
  · intro e he
    rcases mem_extractCleanKeywords he with ⟨w, n, rfl, _, hn⟩
    exact ⟨hn, rfl⟩

/-- C3 counterexample: on the empty text, `"".split(/\s+/)` is `[""]`, so
    the computed reading time is `ceil(1/200) = 1`, while the number of
    whitespace-separated tokens of the empty text is 0, giving
    `ceil(0/200) = 0`. -/
theorem claim_C3_counterexample :
    ¬ (calculateReadingTime "" = ((wsTokens "".data).length + 199) / 200) := by decide

/-- C3 (amended): the reading time is the ceiling of the `split(/\s+/)`
    fragment count divided by 200; that fragment count agrees with the
    number of whitespace-separated tokens whenever the text is non-empty
    and neither starts nor ends with whitespace; and in the analysis
    output `page_details.reading_time` is always the ceiling of
    `content_analysis.word_count / 200`. -/
theorem claim_C3_reading_time :
    (∀ text : String,
      calculateReadingTime text = ((jsSplitWs text.data).length + 199) / 200) ∧
    (∀ text : String, text.data ≠ [] → leadWs text.data = false → trailWs text.data = false →
      calculateReadingTime text = ((wsTokens text.data).length + 199) / 200) ∧
    (∀ now url topic : String,
      (generateSEOAnalysisAt now url topic).analysis.page_details.reading_time =
        ((generateSEOAnalysisAt now url topic).analysis.seo_factors.content_analysis.word_count
          + 199) / 200) := by
  refine ⟨fun text => rfl, ?_, fun now url topic => rfl⟩
  intro text h0 h1 h2
  unfold calculateReadingTime
  rw [jsSplitWs_length_eq_runs text.data h0 h1 h2]
  rfl

/-- C3 witness: a concrete text with no boundary whitespace on which the
    amended token form of the reading-time formula is discharged. -/
theorem claim_C3_witness :
    ("hello world" : String).data ≠ [] ∧
    leadWs ("hello world" : String).data = false ∧
    trailWs ("hello world" : String).data = false ∧
    calculateReadingTime "hello world" =
      ((wsTokens ("hello world" : String).data).length + 199) / 200 :=
  ⟨by decide, by decide, by decide,
   claim_C3_reading_time.2.1 "hello world" (by decide) (by decide) (by decide)⟩

/-- C4 counterexample: with `mainTopic` absent the scorer does not yield a
    grade-"F" report at all: the keyword-extraction step is reached with
    an undefined argument and the call throws, producing no result. -/
theorem claim_C4_counterexample :
    ¬ ∃ r : GenerateResult,
        generateSEOAnalysisJS "2025-01-01T00:00:00.000Z" "https://example.com" none = some r ∧
        r.analysis.overview.grade = "F" := by
  rintro ⟨r, h, -⟩
  simp [generateSEOAnalysisJS] at h

/-- C4 (amended): when the topic is the empty string, `generateSEOAnalysis`
    yields all-zero sub-scores, no heading bonus, an overall score of 0 and
    grade "F".  (When `mainTopic` is absent the function instead throws.) -/
theorem claim_C4_empty_topic_all_zero (now url : String) :
    (generateSEOAnalysisAt now url "").analysis.seo_factors.title_analysis.score = 0 ∧
    (generateSEOAnalysisAt now url "").analysis.seo_factors.meta_description_analysis.score = 0 ∧
    (generateSEOAnalysisAt now url "").analysis.seo_factors.content_analysis.score = 0 ∧
    (generateSEOAnalysisAt now url "").analysis.seo_factors.keyword_analysis.score = 0 ∧
    (generateSEOAnalysisAt now url "").analysis.page_details.headings_count = 0 ∧
    (generateSEOAnalysisAt now url "").analysis.overview.overall_score = 0 ∧
    (generateSEOAnalysisAt now url "").analysis.overview.grade = "F" :=
  ⟨rfl, rfl, rfl, rfl, rfl, rfl, rfl⟩

/-- C5: the title sub-score and status are exactly the claimed function of
    the title length: [30,60] gives (25, Excellent), [20,29] gives
    (15, Good), above 60 gives (10, Too Long), other non-zero lengths give
    (5, Too Short), and length 0 gives (0, Missing). -/
theorem claim_C5_title_bands (title : String) :
    ((titleAnalysisOf title).score, (titleAnalysisOf title).status) =
      titleBandSpec title.data.length := by
  unfold titleAnalysisOf titleBandSpec titleBand
  split_ifs <;> first | rfl | omega

/-- C6: in every report the grade is the fixed-threshold function of the
    capped overall score, and that function is monotonic: a smaller score
    never receives a better grade. -/
theorem claim_C6_grade_monotone :
    (∀ now url topic : String,
      (generateSEOAnalysisAt now url topic).analysis.overview.grade =
        gradeOf (generateSEOAnalysisAt now url topic).analysis.overview.overall_score) ∧
    (∀ s1 s2 : Nat, s1 ≤ s2 → gradeRank (gradeOf s1) ≤ gradeRank (gradeOf s2)) := by
  constructor
  · intro now url topic
    rfl
  · intro s1 s2 h
    unfold gradeOf gradeStatusOf
    split_ifs <;> first | decide | omega

/-- C6 witness: the grade function and its monotonicity at concrete scores. -/
theorem claim_C6_witness :
    (generateSEOAnalysisAt "T" "https://example.com" "seo").analysis.overview.grade =
      gradeOf (generateSEOAnalysisAt "T" "https://example.com" "seo").analysis.overview.overall_score ∧
    gradeRank (gradeOf 40) ≤ gradeRank (gradeOf 95) :=
  ⟨claim_C6_grade_monotone.1 "T" "https://example.com" "seo",
   claim_C6_grade_monotone.2 40 95 (by decide)⟩

/-- C7 counterexample: the scorer's output embeds the wall-clock reading
    (`analysis_date`, `timestamp`), so two invocations on the same input
    at different clock readings produce different outputs. -/
theorem claim_C7_counterexample :
    generateSEOAnalysisAt "2025-01-01T00:00:00.000Z" "https://example.com" "seo" ≠
      generateSEOAnalysisAt "2025-01-01T00:00:01.000Z" "https://example.com" "seo" := by
  intro h
  have h2 : "2025-01-01T00:00:00.000Z" = "2025-01-01T00:00:01.000Z" :=
    congrArg GenerateResult.timestamp h
  exact absurd h2 (by decide)

/-- C7 (amended): the scorer is deterministic apart from its wall-clock
    fields: with the clock reading as an explicit input, any two
    invocations on the same website data agree on everything except
    `analysis.overview.analysis_date` and `timestamp`. -/
theorem claim_C7_deterministic_modulo_clock (now1 now2 url topic : String) :
    stripDates (generateSEOAnalysisAt now1 url topic) =
      stripDates (generateSEOAnalysisAt now2 url topic) := rfl

/-- C10: every keyword returned by `extractCleanKeywords` contains at
    least one non-digit character, because purely numeric tokens are
    filtered out before frequency counting. -/
theorem claim_C10_keywords_not_pure_digits (text : String) :
    ∀ e ∈ extractCleanKeywords text, e.keyword.data.any (fun c => !(c.isDigit)) = true := by
  intro e he
  rcases mem_extractCleanKeywords he with ⟨w, n, rfl, hf, -⟩
  exact keywordFilter_has_nondigit hf

/-- C10 witness: a concrete extraction whose entry is checked to contain a
    non-digit character. -/
theorem claim_C10_witness :
    (⟨"word", 2, "Low"⟩ : KeywordEntry) ∈ extractCleanKeywords "word word" ∧
    (⟨"word", 2, "Low"⟩ : KeywordEntry).keyword.data.any (fun c => !(c.isDigit)) = true :=
  ⟨by decide,
   claim_C10_keywords_not_pure_digits "word word" ⟨"word", 2, "Low"⟩ (by decide)⟩

/-- C2 witness: a concrete extraction on which the frequency and
    importance facts of the amended pipeline claim are discharged. -/
theorem claim_C2_witness :
    (⟨"word", 4, "Medium"⟩ : KeywordEntry) ∈ extractCleanKeywords "word word word word" ∧
    (2 ≤ (⟨"word", 4, "Medium"⟩ : KeywordEntry).frequency ∧
      (⟨"word", 4, "Medium"⟩ : KeywordEntry).importance =
        (if (⟨"word", 4, "Medium"⟩ : KeywordEntry).frequency > 5 then "High"
         else if (⟨"word", 4, "Medium"⟩ : KeywordEntry).frequency > 3 then "Medium"
         else "Low")) :=
  ⟨by decide,
   (claim_C2_keyword_pipeline "word word word word").2.2 ⟨"word", 4, "Medium"⟩ (by decide)⟩

/-- C8: both `POST` handlers answer 400 with an error body when
    `websiteUrl` or `mainTopic` is missing (falsy), answer 500 with the
    generic message on a request-parse failure and on every webhook
    round-trip failure, every error-shaped response carries a non-2xx
    status (400 or 500), and every valid non-failing request is answered
    200 with a report: an array containing one report object from the mock
    route, a response object from the webhook route. -/
theorem claim_C8_error_handling :
    (∀ (now : String) (body : RequestBody),
      truthy body.websiteUrl = false ∨ truthy body.mainTopic = false →
      POSTmock now (Except.ok body) =
        ⟨400, ResponseBody.errorBody "Website URL and Main Topic are required" none⟩ ∧
      ∀ upstream, POSTwebhook now (Except.ok body) upstream =
        ⟨400, ResponseBody.errorBody "Website URL and Main Topic are required" none⟩) ∧
    (∀ (now msg : String) (upstream : WebhookOutcome),
      POSTmock now (Except.error msg) =
        ⟨500, ResponseBody.errorBody
          "Failed to process SEO analysis. Please try again later." (some msg)⟩ ∧
      POSTwebhook now (Except.error msg) upstream =
        ⟨500, ResponseBody.errorBody
          "Failed to process SEO analysis. Please try again later." (some msg)⟩) ∧
    (∀ (now : String) (body : RequestBody) (upstream : WebhookOutcome),
      truthy body.websiteUrl = true → truthy body.mainTopic = true →
      isUpstreamFailure upstream = true →
      (POSTwebhook now (Except.ok body) upstream).status = 500 ∧
      ∃ d, (POSTwebhook now (Except.ok body) upstream).body =
        ResponseBody.errorBody
          "Failed to process SEO analysis. Please try again later." (some d)) ∧
    (∀ (now : String) (parsed : Except String RequestBody) (e : String) (d : Option String),
      (POSTmock now parsed).body = ResponseBody.errorBody e d →
      (POSTmock now parsed).status = 400 ∨ (POSTmock now parsed).status = 500) ∧
    (∀ (now : String) (parsed : Except String RequestBody) (upstream : WebhookOutcome)
        (e : String) (d : Option String),
      (POSTwebhook now parsed upstream).body = ResponseBody.errorBody e d →
      (POSTwebhook now parsed upstream).status = 400 ∨
        (POSTwebhook now parsed upstream).status = 500) ∧
    (∀ (now : String) (body : RequestBody),
      truthy body.websiteUrl = true → truthy body.mainTopic = true →
      POSTmock now (Except.ok body) =
        ⟨200, ResponseBody.reportArray
          (mockReportItem now (body.websiteUrl.getD "") (body.mainTopic.getD "") body.email)⟩ ∧
      ∀ wd, POSTwebhook now (Except.ok body) (WebhookOutcome.respOk wd) =
        ⟨200, ResponseBody.reportObject
          (formatWebhookResponse now (body.websiteUrl.getD "") (body.mainTopic.getD "")
            body.email wd)⟩) := by
  refine ⟨?_, ?_, ?_, ?_, ?_, ?_⟩
  · intro now body h
    have hc : (truthy body.websiteUrl && truthy body.mainTopic) = false := by
      rcases h with h | h <;> simp [h]
    constructor
    · simp [POSTmock, hc]
    · intro upstream
      simp [POSTwebhook, hc]
  · intro now msg upstream
    exact ⟨rfl, rfl⟩
  · intro now body upstream h1 h2 hfail
    have hc : (truthy body.websiteUrl && truthy body.mainTopic) = true := by simp [h1, h2]
    cases upstream with
    | fetchFailed msg => exact ⟨by simp [POSTwebhook, hc], ⟨msg, by simp [POSTwebhook, hc]⟩⟩
    | respNotOk st stTxt =>
      exact ⟨by simp [POSTwebhook, hc],
        ⟨"Webhook responded with status: " ++ toString st ++ " " ++ stTxt,
          by simp [POSTwebhook, hc]⟩⟩
    | badJson =>
      exact ⟨by simp [POSTwebhook, hc],
        ⟨"Invalid response from webhook service", by simp [POSTwebhook, hc]⟩⟩
    | respOk wd => simp [isUpstreamFailure] at hfail
  · intro now parsed e d h
    cases parsed with
    | error msg => exact Or.inr rfl
    | ok body =>
      by_cases hc : (truthy body.websiteUrl && truthy body.mainTopic) = true
      · rw [POSTmock] at h
        simp only [hc, if_true] at h
        exact absurd h (by simp)
      · simp only [Bool.not_eq_true] at hc
        left
        simp [POSTmock, hc]
  · intro now parsed upstream e d h
    cases parsed with
    | error msg => exact Or.inr rfl
    | ok body =>
      by_cases hc : (truthy body.websiteUrl && truthy body.mainTopic) = true
      · cases upstream with
        | fetchFailed msg => right; simp [POSTwebhook, hc]
        | respNotOk st stTxt => right; simp [POSTwebhook, hc]
        | badJson => right; simp [POSTwebhook, hc]
        | respOk wd =>
          rw [POSTwebhook] at h
          simp only [hc, if_true] at h
          exact absurd h (by simp)
      · simp only [Bool.not_eq_true] at hc
        left
        simp [POSTwebhook, hc]
  · intro now body h1 h2
    have hc : (truthy body.websiteUrl && truthy body.mainTopic) = true := by simp [h1, h2]
    exact ⟨by simp [POSTmock, hc], fun wd => by simp [POSTwebhook, hc]⟩

/-- C8 witness: the four behaviours at concrete requests: a falsy
    `websiteUrl` answered 400, a parse failure answered 500, a failing
    webhook round trip answered 500, and a valid mock request answered 200
    with the array-wrapped report. -/
theorem claim_C8_witness :
    POSTmock "T" (Except.ok ⟨some "", some "seo", none⟩) =
      ⟨400, ResponseBody.errorBody "Website URL and Main Topic are required" none⟩ ∧
    POSTmock "T" (Except.error "bad json") =
      ⟨500, ResponseBody.errorBody
        "Failed to process SEO analysis. Please try again later." (some "bad json")⟩ ∧
    (POSTwebhook "T" (Except.ok ⟨some "https://a.com", some "seo", none⟩)
      (WebhookOutcome.respNotOk 503 "Service Unavailable")).status = 500 ∧
    ((POSTmock "T" (Except.error "oops")).status = 400 ∨
      (POSTmock "T" (Except.error "oops")).status = 500) ∧
    POSTmock "T" (Except.ok ⟨some "https://a.com", some "seo", none⟩) =
      ⟨200, ResponseBody.reportArray (mockReportItem "T" "https://a.com" "seo" none)⟩ :=
  ⟨(claim_C8_error_handling.1 "T" ⟨some "", some "seo", none⟩ (Or.inl (by decide))).1,
   (claim_C8_error_handling.2.1 "T" "bad json" WebhookOutcome.badJson).1,
   (claim_C8_error_handling.2.2.1 "T" ⟨some "https://a.com", some "seo", none⟩
     (WebhookOutcome.respNotOk 503 "Service Unavailable")
     (by decide) (by decide) (by decide)).1,
   claim_C8_error_handling.2.2.2.1 "T" (Except.error "oops")
     "Failed to process SEO analysis. Please try again later." (some "oops") rfl,
   (claim_C8_error_handling.2.2.2.2.2 "T" ⟨some "https://a.com", some "seo", none⟩
     (by decide) (by decide)).1⟩

/-- C9: every successful mock-route response is the array-wrapped report
    whose `current_keywords` has at most 3 entries, whose
    `priority_keywords` are exactly the analysed keywords of importance
    "High", whose `long_tail_opportunities` are exactly the remaining
    analysed keywords, and whose two keyword lists have lengths summing to
    `keyword_opportunities.total_found`. -/
theorem claim_C9_keyword_partition (now : String) (body : RequestBody)
    (h1 : truthy body.websiteUrl = true) (h2 : truthy body.mainTopic = true) :
    POSTmock now (Except.ok body) =
      ⟨200, ResponseBody.reportArray
        (mockReportItem now (body.websiteUrl.getD "") (body.mainTopic.getD "") body.email)⟩ ∧
    (mockReportItem now (body.websiteUrl.getD "") (body.mainTopic.getD "")
        body.email).seo_report.current_keywords.length ≤ 3 ∧
    (mockReportItem now (body.websiteUrl.getD "") (body.mainTopic.getD "")
        body.email).seo_report.keyword_opportunities.priority_keywords =
      ((generateSEOAnalysisAt now (body.websiteUrl.getD "")
          (body.mainTopic.getD "")).analysis.top_keywords.filter
        (fun k => k.importance == "High")).map (fun k => k.keyword) ∧
    (mockReportItem now (body.websiteUrl.getD "") (body.mainTopic.getD "")
        body.email).seo_report.keyword_opportunities.long_tail_opportunities =
      ((generateSEOAnalysisAt now (body.websiteUrl.getD "")
          (body.mainTopic.getD "")).analysis.top_keywords.filter
        (fun k => !(k.importance == "High"))).map (fun k => k.keyword) ∧
    (mockReportItem now (body.websiteUrl.getD "") (body.mainTopic.getD "")
        body.email).seo_report.keyword_opportunities.priority_keywords.length +
      (mockReportItem now (body.websiteUrl.getD "") (body.mainTopic.getD "")
        body.email).seo_report.keyword_opportunities.long_tail_opportunities.length =
      (mockReportItem now (body.websiteUrl.getD "") (body.mainTopic.getD "")
        body.email).seo_report.keyword_opportunities.total_found := by
  have hc : (truthy body.websiteUrl && truthy body.mainTopic) = true := by simp [h1, h2]
  refine ⟨by simp [POSTmock, hc], ?_, ?_, ?_, ?_⟩
  · simp only [mockReportItem]
    rw [List.length_map, List.length_take]
    exact min_le_left _ _
  · simp only [mockReportItem]
  · simp only [mockReportItem]
  · simp only [mockReportItem]
    rw [List.length_map, List.length_map]
    exact length_filter_add_length_filter_not _ _

set_option maxRecDepth 4000 in
/-- C9 witness: the partition facts at a concrete valid request. -/
theorem claim_C9_witness :
    POSTmock "T" (Except.ok ⟨some "https://a.com", some "seo", none⟩) =
      ⟨200, ResponseBody.reportArray (mockReportItem "T" "https://a.com" "seo" none)⟩ ∧
    (mockReportItem "T" "https://a.com" "seo" none).seo_report.current_keywords.length ≤ 3 ∧
    (mockReportItem "T" "https://a.com" "seo"
        none).seo_report.keyword_opportunities.priority_keywords.length +
      (mockReportItem "T" "https://a.com" "seo"
        none).seo_report.keyword_opportunities.long_tail_opportunities.length =
      (mockReportItem "T" "https://a.com" "seo"
        none).seo_report.keyword_opportunities.total_found := by
  have h := claim_C9_keyword_partition "T" ⟨some "https://a.com", some "seo", none⟩
    (by decide) (by decide)
  exact ⟨h.1, h.2.1, h.2.2.2.2⟩

end SEOAnalyzer
